import Mathlib

/-!
Verification of the typerush theme provider (src/unnamed/part_000).

The file embeds the data model and the operations of the provider as
executable Lean definitions and proves, or refutes, the frozen claims
about them.  The React rendering model is made explicit: component state
lives in a record, the mount and update effect is a function on that
record, and the re-render loop that React runs after a state update is a
fuel-bounded fixpoint of that function, guarded by the effect dependency
comparison exactly as the hooks declare it.
-/

namespace TypeRush

/-- Theme union of line 12: the three string tags light, dark, system. -/
inductive Theme where
  | light
  | dark
  | system
deriving DecidableEq

/-- SystemTheme of line 13: Theme with the system tag excluded. -/
inductive SystemTheme where
  | light
  | dark
deriving DecidableEq

/-- The string tag of a Theme value, as it is written to storage. -/
def themeToString : Theme → String
  | Theme.light => "light"
  | Theme.dark => "dark"
  | Theme.system => "system"

/-- Inclusion of SystemTheme back into Theme. -/
def SystemTheme.toTheme : SystemTheme → Theme
  | SystemTheme.light => Theme.light
  | SystemTheme.dark => Theme.dark

/-- JavaScript short-circuit or applied to an optional string: null and
the empty string are falsy and select the fallback. -/
def jsOr : Option String → String → String
  | none, d => d
  | some s, d => if s = "" then d else s

/-- The value prop of lines 22 to 25: the configurable light and dark
label mapping, both entries optional. -/
structure ValueMap where
  light : Option String
  dark : Option String
deriving DecidableEq

/-- The ThemeProvider props of lines 15 to 26, children omitted.  The
field attr models the prop named attribute, whose type is a string or the
literal false; none models false. -/
structure Config where
  defaultTheme : Theme
  storageKey : String
  disableTransitionOnChange : Bool
  enableSystem : Bool
  attr : Option String
  value : ValueMap
deriving DecidableEq

/-- The prop defaults of lines 50 to 55. -/
def defaultConfig : Config :=
  { defaultTheme := Theme.system
    storageKey := "ui-theme"
    disableTransitionOnChange := true
    enableSystem := true
    attr := some "data-theme"
    value := { light := some "light", dark := some "dark" } }

/-- The fragment of the DOM that the provider mutates: the one root
attribute slot it writes (its name is jsOr attr of the config applied to
the fallback data-theme, constant for a provider instance), the class
list of the root element, the textContent of each style element of
document.head in order, and the content of the theme-color meta element
when it exists (none models a document without that element). -/
structure Dom where
  rootAttr : Option String
  rootClasses : List String
  headStyles : List String
  metaColor : Option String
deriving DecidableEq

/-- A document in its initial state. -/
def emptyDom : Dom :=
  { rootAttr := none, rootClasses := [], headStyles := [], metaColor := none }

/-- The template literal of lines 90 to 95, the textContent of the
transition suppression style element. -/
def cssSuppression : String :=
  "* \x7b\n          -webkit-transition: none !important;\n          -moz-transition: none !important;\n          -o-transition: none !important;\n          transition: none !important;\n        \x7d"

/-- The content marker that the removal callback of line 140 looks for
with includes. -/
def suppressionMarker : String := "transition: none !important"

/-- Whether the character list pat is an initial segment of s. -/
def strHasPrefixL : List Char → List Char → Bool
  | [], _ => true
  | _ :: _, [] => false
  | a :: as, b :: bs => a = b && strHasPrefixL as bs

/-- Whether the character list pat occurs contiguously inside s. -/
def strHasSubstrL (pat : List Char) : List Char → Bool
  | [] => strHasPrefixL pat []
  | s@(_ :: rest) => strHasPrefixL pat s || strHasSubstrL pat rest

/-- JavaScript String.prototype.includes: pat occurs inside s. -/
def strHasSubstr (s pat : String) : Bool :=
  strHasSubstrL pat.toList s.toList

/-- The resolved theme computation inside applyTheme, lines 107 to 111:
system resolves to the captured systemTheme, any other tag to itself
(the assignment resolved = newTheme of line 110, with newTheme known to
be distinct from system in that branch). -/
def applyThemeResolved (newTheme : Theme) (systemTheme : SystemTheme) : SystemTheme :=
  match newTheme with
  | Theme.system => systemTheme
  | Theme.light => SystemTheme.light
  | Theme.dark => SystemTheme.dark

/-- The memo of lines 74 to 76 that the provider exposes as
resolvedTheme: the ternary theme equal to system, then systemTheme, else
theme reinterpreted as SystemTheme (the else branch written out as the
two remaining tags). -/
def resolvedTheme (theme : Theme) (systemTheme : SystemTheme) : SystemTheme :=
  match theme with
  | Theme.system => systemTheme
  | Theme.light => SystemTheme.light
  | Theme.dark => SystemTheme.dark

/-- applyTheme of lines 82 to 150, its DOM mutations in order, returning
the mutated document and the resolved value of line 147.  The argument
systemTheme is the value captured by the useCallback closure at the
render that produced this applyTheme instance.  Step by step: inject the
suppression style when configured (lines 88 to 97), remove both theme
class labels from the root (line 100), remove the marker attribute when
the attribute mode is a name (lines 102 to 104), compute resolved (lines
107 to 111), write the marker as a class when the attribute prop is
false, else as the attribute (lines 114 to 123), and update the
theme-color meta content when the element exists (lines 126 to 132).
The scheduled requestAnimationFrame removal of lines 137 to 144 is
modelled separately by removalCallback. -/
def applyTheme (cfg : Config) (systemTheme : SystemTheme) (newTheme : Theme) (dom : Dom) :
    Dom × SystemTheme :=
  let lightLbl := jsOr cfg.value.light "light"
  let darkLbl := jsOr cfg.value.dark "dark"
  let d1 :=
    if cfg.disableTransitionOnChange then
      { dom with headStyles := dom.headStyles ++ [cssSuppression] }
    else dom
  let d2 := { d1 with rootClasses := d1.rootClasses.filter (fun c => !(c == lightLbl || c == darkLbl)) }
  let d3 :=
    match cfg.attr with
    | some _ => { d2 with rootAttr := none }
    | none => d2
  let resolved := applyThemeResolved newTheme systemTheme
  let marker := if resolved = SystemTheme.light then lightLbl else darkLbl
  let d4 :=
    match cfg.attr with
    | none =>
        { d3 with rootClasses := if d3.rootClasses.contains marker then d3.rootClasses else d3.rootClasses ++ [marker] }
    | some _ => { d3 with rootAttr := some marker }
  let d5 :=
    match d4.metaColor with
    | some _ => { d4 with metaColor := some (if resolved = SystemTheme.light then "#ffffff" else "#000000") }
    | none => d4
  (d5, resolved)

/-- The requestAnimationFrame callback of lines 137 to 144: walk every
style element of document.head and remove each one whose textContent
includes the suppression marker.  One invocation of this function is one
scheduled callback firing. -/
def removalCallback (d : Dom) : Dom :=
  { d with headStyles := d.headStyles.filter (fun s => !(strHasSubstr s suppressionMarker)) }

/-- The useState initializer of lines 57 to 65, at the level of the raw
runtime values: getItem returns null or an arbitrary string, and the
cast written as Theme performs no validation, so the honest return type
of this initializer is String.  hasWindow models the typeof window check
of line 58; the Except argument models the try catch of lines 60 to 64,
error being a throwing storage and ok the value read (none for null). -/
def initialThemeString (hasWindow : Bool) (storageRead : Except Unit (Option String))
    (defaultTheme : Theme) : String :=
  if hasWindow then
    match storageRead with
    | Except.ok v => jsOr v (themeToString defaultTheme)
    | Except.error _ => themeToString defaultTheme
  else themeToString defaultTheme

/-- The useState initializer of lines 67 to 72: light without a window,
else the matchMedia result for prefers-color-scheme dark. -/
def initialSystemTheme (hasWindow : Bool) (osDark : Bool) : SystemTheme :=
  if hasWindow then (if osDark then SystemTheme.dark else SystemTheme.light)
  else SystemTheme.light

/-- The full provider instance state.  theme and systemTheme are the two
useState cells.  listenerTheme and listenerSystemTheme are the values of
theme and systemTheme captured by the closures of the effect of lines
153 to 173 the last time it ran: the registered media-query listener
reads theme from its closure, and the applyTheme instance it calls
captured systemTheme at that same render.  dom is the mutated document,
storage the value stored under the configured key (none when nothing is
stored) and storageBroken whether localStorage throws on access. -/
structure ProviderModel where
  theme : Theme
  systemTheme : SystemTheme
  listenerTheme : Theme
  listenerSystemTheme : SystemTheme
  dom : Dom
  storage : Option String
  storageBroken : Bool
deriving DecidableEq

/-- One run of the effect body of lines 153 to 155 plus the listener
re-registration: resolved is applyTheme applied to the current theme,
then setSystemTheme(resolved) overwrites the systemTheme cell, and the
freshly registered listener captures the render values of theme and
systemTheme. -/
def runEffect (cfg : Config) (m : ProviderModel) : ProviderModel :=
  let r := applyTheme cfg m.systemTheme m.theme m.dom
  { m with
    dom := r.1
    systemTheme := r.2
    listenerTheme := m.theme
    listenerSystemTheme := m.systemTheme }

/-- Whether the dependency array of the effect, [theme, applyTheme],
differs from the values at its previous run.  applyTheme is a
useCallback keyed on [systemTheme, disableTransitionOnChange, attribute,
value]; the configuration is constant for an instance, so its identity
changes exactly when systemTheme does. -/
def depsChanged (m : ProviderModel) : Bool :=
  !(m.theme == m.listenerTheme) || !(m.systemTheme == m.listenerSystemTheme)

/-- The React commit loop after an event handler returns: while the
effect dependencies changed since the last run, run the effect again
(each setSystemTheme inside it may change state and re-trigger it).  A
fuel bound keeps the definition total; two runs always reach the
fixpoint, so a fuel of four is never exhausted on the events below. -/
def settle (cfg : Config) : Nat → ProviderModel → ProviderModel
  | 0, m => m
  | Nat.succ n, m => if depsChanged m then settle cfg n (runEffect cfg m) else m

/-- The setTheme callback of lines 175 to 186 followed by the commit
loop: try to persist (a throwing storage is swallowed by the catch of
lines 179 to 181 and leaves storage untouched), set the theme cell,
call the captured applyTheme on the new theme, then let React re-render
and re-run the effect until its dependencies stop changing. -/
def setThemeEvent (cfg : Config) (newTheme : Theme) (m : ProviderModel) : ProviderModel :=
  let m1 := if m.storageBroken then m else { m with storage := some (themeToString newTheme) }
  let r := applyTheme cfg m1.systemTheme newTheme m1.dom
  settle cfg 4 { m1 with theme := newTheme, dom := r.1 }

/-- The media-query change handler of lines 158 to 166 followed by the
commit loop.  The handler closure reads theme as captured at listener
registration; when that captured theme is system it calls the applyTheme
instance of the same closure, whose systemTheme is also the captured
one, on the argument system. -/
def osChangeEvent (cfg : Config) (isDark : Bool) (m : ProviderModel) : ProviderModel :=
  let newSystemTheme := if isDark then SystemTheme.dark else SystemTheme.light
  let m1 := { m with systemTheme := newSystemTheme }
  let m2 :=
    if m.listenerTheme = Theme.system then
      { m1 with dom := (applyTheme cfg m.listenerSystemTheme Theme.system m1.dom).1 }
    else m1
  settle cfg 4 m2

/-- The toggleTheme callback of lines 188 to 190: setTheme with dark when
the current theme cell is light, else with light. -/
def toggleThemeEvent (cfg : Config) (m : ProviderModel) : ProviderModel :=
  setThemeEvent cfg (if m.theme = Theme.light then Theme.dark else Theme.light) m

/-- Mounting a provider: the two useState cells seeded (theme0 being the
preference the initializer of lines 57 to 65 produced, for a run whose
stored value is a valid tag; osDark the matchMedia result), then the
mount effect runs once unconditionally and the commit loop follows. -/
def initProvider (cfg : Config) (theme0 : Theme) (osDark : Bool) (storage0 : Option String)
    (broken : Bool) (dom0 : Dom) : ProviderModel :=
  let st0 := initialSystemTheme true osDark
  settle cfg 4 (runEffect cfg
    { theme := theme0
      systemTheme := st0
      listenerTheme := theme0
      listenerSystemTheme := st0
      dom := dom0
      storage := storage0
      storageBroken := broken })

/-- The context value record of lines 28 to 35. -/
structure ThemeProviderState where
  theme : Theme
  systemTheme : SystemTheme
  resolvedTheme : SystemTheme
  themes : List Theme
  setTheme : Theme → Unit
  toggleTheme : Unit → Unit

/-- The initialState record of lines 37 to 44, the argument given to
createContext on line 46. -/
def initialState : ThemeProviderState :=
  { theme := Theme.system
    systemTheme := SystemTheme.light
    resolvedTheme := SystemTheme.light
    themes := [Theme.light, Theme.dark, Theme.system]
    setTheme := fun _ => ()
    toggleTheme := fun _ => () }

/-- React useContext applied to ThemeProviderContext: the value of the
nearest enclosing Provider when there is one (providedValue is some),
else the argument that createContext received.  The result type is an
Option so that the JavaScript value undefined (none) is representable;
line 46 passes initialState to createContext, so the no-provider branch
yields some initialState and never none. -/
def reactUseContext (providedValue : Option ThemeProviderState) : Option ThemeProviderState :=
  match providedValue with
  | some v => some v
  | none => some initialState

/-- useTheme of lines 211 to 219: read the context, throw (Except.error)
when the value is undefined, else return it. -/
def useTheme (providedValue : Option ThemeProviderState) : Except String ThemeProviderState :=
  match reactUseContext providedValue with
  | none => Except.error "useTheme must be used within a ThemeProvider"
  | some context => Except.ok context

/-- The target that the toggle claim predicts: the opposite of the
current resolved theme, as an explicit preference. -/
def specToggleTarget (st : SystemTheme) : Theme :=
  match st with
  | SystemTheme.light => Theme.dark
  | SystemTheme.dark => Theme.light

/-- A provider mounted with default configuration, preference system,
the OS reporting light, nothing stored, working storage. -/
def sysLightModel : ProviderModel :=
  initProvider defaultConfig Theme.system false none false emptyDom

/-- A provider mounted with default configuration, stored preference
dark, the OS reporting dark, working storage. -/
def darkPrefModel : ProviderModel :=
  initProvider defaultConfig Theme.dark true (some "dark") false emptyDom

/-- A provider mounted with default configuration, preference system,
the OS reporting light, and a storage that throws on access. -/
def brokenStorageModel : ProviderModel :=
  initProvider defaultConfig Theme.system false none true emptyDom

theorem runEffect_theme (cfg : Config) (m : ProviderModel) :
    (runEffect cfg m).theme = m.theme := rfl

theorem runEffect_storage (cfg : Config) (m : ProviderModel) :
    (runEffect cfg m).storage = m.storage := rfl

theorem settle_theme (cfg : Config) (n : Nat) :
    ∀ m : ProviderModel, (settle cfg n m).theme = m.theme := by
  induction n with
  | zero => intro m; rfl
  | succ k ih =>
      intro m
      show (if depsChanged m then settle cfg k (runEffect cfg m) else m).theme = m.theme
      cases h : depsChanged m
      · simp
      · simp [ih, runEffect_theme]

theorem settle_storage (cfg : Config) (n : Nat) :
    ∀ m : ProviderModel, (settle cfg n m).storage = m.storage := by
  induction n with
  | zero => intro m; rfl
  | succ k ih =>
      intro m
      show (if depsChanged m then settle cfg k (runEffect cfg m) else m).storage = m.storage
      cases h : depsChanged m
      · simp
      · simp [ih, runEffect_storage]

theorem setThemeEvent_theme (cfg : Config) (p : Theme) (m : ProviderModel) :
    (setThemeEvent cfg p m).theme = p := by
  cases h : m.storageBroken <;> simp [setThemeEvent, settle_theme, h]

theorem setThemeEvent_storage (cfg : Config) (p : Theme) (m : ProviderModel) :
    (setThemeEvent cfg p m).storage
      = if m.storageBroken then m.storage else some (themeToString p) := by
  cases h : m.storageBroken <;> simp [setThemeEvent, settle_storage, h]

theorem toTheme_resolved (p : Theme) (st : SystemTheme) (h : p ≠ Theme.system) :
    SystemTheme.toTheme (resolvedTheme p st) = p := by
  cases p with
  | light => rfl
  | dark => rfl
  | system => exact absurd rfl h

theorem themeToString_ne_empty (p : Theme) : ¬ themeToString p = "" := by
  cases p <;> decide

theorem jsOr_some_of_ne (s d : String) (h : ¬ s = "") : jsOr (some s) d = s := by
  show (if s = "" then d else s) = s
  rw [if_neg h]

/-- Claim C1: invoking useTheme outside any ThemeProvider is claimed to
throw.  Evaluating the code at that input: createContext received
initialState on line 46, so useContext yields initialState (never
undefined), the guard of line 214 cannot fire, and useTheme returns the
default state silently. -/
theorem useTheme_outside_returns_default : useTheme none = Except.ok initialState := rfl

/-- Claim C2, the failing input evaluated.  First part: with the OS
reporting light and preference system (sysLightModel has systemTheme
light), calling setTheme dark makes the settled store carry systemTheme
dark — a preference change altered systemTheme, because the effect of
lines 153 to 155 runs setSystemTheme on the value applyTheme returned.
Second part: from a settled store with explicit preference dark, an OS
notification reporting light leaves the settled systemTheme at dark (the
effect clobbers the freshly delivered value), while the root marker
stays dark as the claim expects. -/
theorem systemTheme_clobbered_by_effect :
    sysLightModel.systemTheme = SystemTheme.light
      ∧ (setThemeEvent defaultConfig Theme.dark sysLightModel).systemTheme = SystemTheme.dark
      ∧ (osChangeEvent defaultConfig false darkPrefModel).systemTheme = SystemTheme.dark
      ∧ ¬ (osChangeEvent defaultConfig false darkPrefModel).systemTheme = SystemTheme.light
      ∧ (osChangeEvent defaultConfig false darkPrefModel).dom.rootAttr = some "dark" := by
  decide

/-- Claim C3, counterexample.  In the settled store sysLightModel the
preference is system and the resolved theme is light, so the claim
predicts that toggling is setTheme applied to dark; the code toggles on
the preference cell instead and calls setTheme with light. -/
theorem toggle_differs_from_resolved_opposite :
    (toggleThemeEvent defaultConfig sysLightModel).theme = Theme.light
      ∧ (setThemeEvent defaultConfig
            (specToggleTarget (resolvedTheme sysLightModel.theme sysLightModel.systemTheme))
            sysLightModel).theme = Theme.dark
      ∧ ¬ (toggleThemeEvent defaultConfig sysLightModel).theme
            = (setThemeEvent defaultConfig
                (specToggleTarget (resolvedTheme sysLightModel.theme sysLightModel.systemTheme))
                sysLightModel).theme := by
  decide

/-- Claim C3, amended: toggling is setTheme applied to the opposite of
the current resolved theme whenever the preference is explicit; when the
preference is system, toggling always calls setTheme with light,
whatever the resolved theme is. -/
theorem toggle_matches_resolved_opposite_explicit (cfg : Config) (m : ProviderModel) :
    (m.theme ≠ Theme.system →
        toggleThemeEvent cfg m
          = setThemeEvent cfg (specToggleTarget (resolvedTheme m.theme m.systemTheme)) m)
      ∧ (m.theme = Theme.system → toggleThemeEvent cfg m = setThemeEvent cfg Theme.light m) := by
  constructor
  · intro h
    cases hm : m.theme with
    | light =>
        show setThemeEvent cfg (if m.theme = Theme.light then Theme.dark else Theme.light) m = _
        rw [hm]
        rfl
    | dark =>
        show setThemeEvent cfg (if m.theme = Theme.light then Theme.dark else Theme.light) m = _
        rw [hm]
        rfl
    | system => exact absurd hm h
  · intro h
    show setThemeEvent cfg (if m.theme = Theme.light then Theme.dark else Theme.light) m = _
    rw [h]
    rfl

theorem toggle_matches_resolved_opposite_explicit_w :
    toggleThemeEvent defaultConfig sysLightModel
      = setThemeEvent defaultConfig Theme.light sysLightModel :=
  (toggle_matches_resolved_opposite_explicit defaultConfig sysLightModel).2 (by decide)

/-- Claim C4, the failing input evaluated.  The initializer treats an
absent value and a throwing storage as not set and falls back to the
default, but a corrupted stored value such as blue passes through the
unchecked cast of line 61 unvalidated: the provider starts with the
string blue as its preference instead of the configured default. -/
theorem corrupted_stored_value_kept :
    initialThemeString true (Except.ok (some "blue")) Theme.system = "blue"
      ∧ ¬ initialThemeString true (Except.ok (some "blue")) Theme.system
            = themeToString Theme.system
      ∧ initialThemeString true (Except.ok none) Theme.system = themeToString Theme.system
      ∧ initialThemeString true (Except.error ()) Theme.system = themeToString Theme.system := by
  decide

/-- Claim C5: for every explicit preference p and every store state,
after setTheme p the exposed resolved theme equals p, whatever the
system theme is or becomes during the commit loop. -/
theorem setTheme_explicit_resolves (cfg : Config) (p : Theme) (m : ProviderModel)
    (h : p ≠ Theme.system) :
    SystemTheme.toTheme
        (resolvedTheme (setThemeEvent cfg p m).theme (setThemeEvent cfg p m).systemTheme) = p := by
  rw [setThemeEvent_theme]
  exact toTheme_resolved p _ h

theorem setTheme_explicit_resolves_w :
    Theme.light ≠ Theme.system
      ∧ SystemTheme.toTheme
          (resolvedTheme (setThemeEvent defaultConfig Theme.light sysLightModel).theme
            (setThemeEvent defaultConfig Theme.light sysLightModel).systemTheme) = Theme.light :=
  ⟨by decide, setTheme_explicit_resolves defaultConfig Theme.light sysLightModel (by decide)⟩

/-- Claim C6: after any sequence of OS change notifications, whenever
the preference cell holds system the exposed resolved theme equals the
current systemTheme cell — the memo of lines 74 to 76 recomputes from
the two cells on every render, so no stale resolution is observable. -/
theorem system_preference_tracks (cfg : Config) (m : ProviderModel) (es : List Bool)
    (h : (es.foldl (fun s b => osChangeEvent cfg b s) m).theme = Theme.system) :
    resolvedTheme (es.foldl (fun s b => osChangeEvent cfg b s) m).theme
        (es.foldl (fun s b => osChangeEvent cfg b s) m).systemTheme
      = (es.foldl (fun s b => osChangeEvent cfg b s) m).systemTheme := by
  rw [h]
  exact rfl

theorem system_preference_tracks_w :
    ([true, false].foldl (fun s b => osChangeEvent defaultConfig b s) sysLightModel).theme
        = Theme.system
      ∧ resolvedTheme
            ([true, false].foldl (fun s b => osChangeEvent defaultConfig b s) sysLightModel).theme
            ([true, false].foldl (fun s b => osChangeEvent defaultConfig b s) sysLightModel).systemTheme
          = ([true, false].foldl (fun s b => osChangeEvent defaultConfig b s) sysLightModel).systemTheme :=
  ⟨by decide, system_preference_tracks defaultConfig sysLightModel [true, false] (by decide)⟩

/-- Claim C7: when storage throws, setTheme still updates the in-memory
preference to p, leaves the stored value untouched, and the exposed
resolved theme follows the new preference; the operation is a total
function, so no error reaches the caller. -/
theorem setTheme_swallows_storage_failure (cfg : Config) (p : Theme) (m : ProviderModel)
    (h : m.storageBroken = true) :
    (setThemeEvent cfg p m).theme = p
      ∧ (setThemeEvent cfg p m).storage = m.storage
      ∧ (p ≠ Theme.system →
          SystemTheme.toTheme
              (resolvedTheme (setThemeEvent cfg p m).theme (setThemeEvent cfg p m).systemTheme)
            = p) := by
  refine ⟨setThemeEvent_theme cfg p m, ?_, ?_⟩
  · rw [setThemeEvent_storage, h]
    simp
  · intro hp
    rw [setThemeEvent_theme]
    exact toTheme_resolved p _ hp

theorem setTheme_swallows_storage_failure_w :
    brokenStorageModel.storageBroken = true
      ∧ ((setThemeEvent defaultConfig Theme.dark brokenStorageModel).theme = Theme.dark
          ∧ (setThemeEvent defaultConfig Theme.dark brokenStorageModel).storage
              = brokenStorageModel.storage
          ∧ (Theme.dark ≠ Theme.system →
              SystemTheme.toTheme
                  (resolvedTheme (setThemeEvent defaultConfig Theme.dark brokenStorageModel).theme
                    (setThemeEvent defaultConfig Theme.dark brokenStorageModel).systemTheme)
                = Theme.dark)) :=
  ⟨by decide, setTheme_swallows_storage_failure defaultConfig Theme.dark brokenStorageModel (by decide)⟩

/-- Claim C8: with working storage, setTheme p stores the tag of p under
the configured key, and a fresh store initialized from that storage
reads back exactly that tag as its preference (the tag is non-empty, so
the falsy fallback of line 61 does not engage). -/
theorem setTheme_roundtrip (cfg : Config) (p : Theme) (m : ProviderModel)
    (h : m.storageBroken = false) :
    (setThemeEvent cfg p m).storage = some (themeToString p)
      ∧ initialThemeString true (Except.ok (setThemeEvent cfg p m).storage) cfg.defaultTheme
          = themeToString p := by
  have hs : (setThemeEvent cfg p m).storage = some (themeToString p) := by
    rw [setThemeEvent_storage, h]
    simp
  refine ⟨hs, ?_⟩
  rw [hs]
  show jsOr (some (themeToString p)) (themeToString cfg.defaultTheme) = themeToString p
  exact jsOr_some_of_ne _ _ (themeToString_ne_empty p)

theorem setTheme_roundtrip_w :
    sysLightModel.storageBroken = false
      ∧ ((setThemeEvent defaultConfig Theme.dark sysLightModel).storage
            = some (themeToString Theme.dark)
          ∧ initialThemeString true
                (Except.ok (setThemeEvent defaultConfig Theme.dark sysLightModel).storage)
                defaultConfig.defaultTheme
              = themeToString Theme.dark) :=
  ⟨by decide, setTheme_roundtrip defaultConfig Theme.dark sysLightModel (by decide)⟩

set_option maxRecDepth 4000 in
/-- Claim C9, the failing input evaluated.  Two theme changes inside one
frame each inject a suppression rule (both rules carry the identical
marker text), then the removal scheduled by the first change fires: it
strips every style whose content includes the marker, so the rule that
the newer change injected — still inside its own suppression frame — is
removed along with the stale one, leaving no suppression in place. -/
theorem overlapping_suppressions_all_removed :
    ((applyTheme defaultConfig SystemTheme.light Theme.light
          (applyTheme defaultConfig SystemTheme.light Theme.dark emptyDom).1).1).headStyles
        = [cssSuppression, cssSuppression]
      ∧ (removalCallback
            ((applyTheme defaultConfig SystemTheme.light Theme.light
              (applyTheme defaultConfig SystemTheme.light Theme.dark emptyDom).1).1)).headStyles
          = [] := by
  decide

/-- Claim C10: the resolved value computed at lines 107 to 111 and
returned at line 147 by applyTheme coincides, for every theme and
systemTheme pair and every configuration and document, with the memo of
lines 74 to 76 that the provider exposes as resolvedTheme. -/
theorem applyTheme_resolution_agrees (cfg : Config) (st : SystemTheme) (t : Theme) (d : Dom) :
    (applyTheme cfg st t d).2 = resolvedTheme t st := by
  show applyThemeResolved t st = resolvedTheme t st
  cases t <;> rfl

end TypeRush
